/-
Verification of the AWS exam-question pipeline
(image → OCR text → structured question JSON → Notion publish).

Shallow embedding of:
  src/utils/ocr.py      (reader cache, image preprocessing, text extraction)
  src/utils/notion.py   (Notion payload construction and upload)
  src/aws_question_agent.py (the LangGraph workflow: OCR → LLM → Notion)

Conventions:
  - Python machine integers are Nat/Int; uint8 pixel intensities are Nat
    (values 0..255).
  - Python float (IEEE-754 double) arithmetic is modelled by `rnd`, a
    correctly-rounded 53-bit-significand rounding of exact rational values.
    Each Python float operation `a ⊙ b` becomes `rnd (a ⊙ b)` over ℚ.
  - Library calls whose internals the claims do not depend on (cv2.resize
    pixel resampling, cvtColor, bilateralFilter, adaptiveThreshold, the
    easyocr recognizer, the LLM, json.loads, the Notion HTTP client) are
    opaque function parameters; their Python-level control behaviour
    (return values, raising) is explicit in the types.
  - Python exceptions are Except; a raised exception propagates.
-/
import Mathlib

/-! ## Floating-point model

`rnd q` rounds the exact rational `q` to the nearest value with a 53-bit
significand, the rounding IEEE-754 double arithmetic performs after every
operation.  For the magnitudes appearing in this program (no overflow, no
subnormals, and no exact ties — validated against the concrete values used
below) round-half-up agrees with the hardware's round-half-even. -/

/-- Binary exponent of a rational `q ≥ 1`: the `e` with `2^e ≤ q < 2^(e+1)`
(returns 0 for `q < 1`; such inputs do not occur in this program). -/
def fpExp (q : ℚ) : ℕ := Nat.log 2 (⌊q⌋).toNat

/-- Correctly rounded IEEE-754 double of an exact rational value:
round to the nearest multiple of `2^(e-52)` where `e` is the binary
exponent of `q`. -/
def rnd (q : ℚ) : ℚ :=
  (round (q * (2 : ℚ) ^ ((52 : ℤ) - fpExp q)) : ℤ) / (2 : ℚ) ^ ((52 : ℤ) - fpExp q)

/-- Python `str.strip()`: remove leading and trailing whitespace. -/
def strip (s : String) : String :=
  String.mk (((s.data.dropWhile Char.isWhitespace).reverse.dropWhile
    Char.isWhitespace).reverse)

/-! ## src/utils/ocr.py -/

/-- A grayscale buffer: the pixel intensities (0..255) of a single-channel
image, flattened.  Mirrors the numpy uint8 array `gray` in
`preprocess_image`. -/
abbrev Gray := List ℕ

/-- An easyocr reader configuration: the `(lang_list, gpu)` pair passed to
`easyocr.Reader(lang_list, gpu=gpu)`.  A constructed reader instance is
identified by the configuration it was built with. -/
abbrev ReaderCfg := List String × Bool

/-- Model of `init_reader` (src/utils/ocr.py lines 16–38).  The module-global
`_reader` cache is threaded explicitly as `cache : Option ReaderCfg`
(`none` = Python `_reader is None`).  Returns the reader used by the call
(identified by its construction configuration), the new cache, and whether
this call constructed a reader (`_reader = easyocr.Reader(...)` ran). -/
def init_reader (lang_list : List String) (gpu : Bool)
    (cache : Option ReaderCfg) : ReaderCfg × Option ReaderCfg × Bool :=
  match cache with
  | none => ((lang_list, gpu), some (lang_list, gpu), true)
  | some c => (c, some c, false)

/-- One process lifetime of `init_reader` calls: starting from the empty
cache, perform each requested call in order; record, per call, the reader
configuration actually used and whether the call constructed an engine. -/
def runReaderCalls (calls : List ReaderCfg) : List (ReaderCfg × Bool) :=
  (calls.foldl
    (fun acc cfg =>
      let r := init_reader cfg.1 cfg.2 acc.2
      (acc.1 ++ [(r.1, r.2.2)], r.2.1))
    (([] : List (ReaderCfg × Bool)), (none : Option ReaderCfg))).1

/-- The dimension computation of the upscale step of `preprocess_image`
(src/utils/ocr.py lines 66–71):

    if w < resize_width:
        scale = resize_width / w
        img = cv2.resize(img, (int(w*scale), int(h*scale)), ...)

`resize_width / w` and each multiplication are Python float operations
(`rnd` of the exact value); `int()` truncates, which is `Int.floor` on
these nonnegative values.  `cv2.resize` produces an image of exactly the
requested dimensions, so this is the output size of the step. -/
def resize_dims (resize_width w h : ℕ) : ℕ × ℕ :=
  if w < resize_width then
    let scale : ℚ := rnd ((resize_width : ℚ) / (w : ℚ))
    ((⌊rnd ((w : ℚ) * scale)⌋).toNat, (⌊rnd ((h : ℚ) * scale)⌋).toNat)
  else (w, h)

/-- Mean intensity `np.mean(gray)` of a grayscale buffer, as an exact
rational (for buffers of realistic size the float mean compares to the
threshold 100 exactly as the rational mean does). -/
def np_mean (g : Gray) : ℚ := (g.sum : ℚ) / (g.length : ℚ)

/-- The polarity-normalization step of `preprocess_image`
(src/utils/ocr.py lines 77–83):

    mean_intensity = np.mean(gray)
    if mean_intensity < 100:
        gray = cv2.bitwise_not(gray)

`cv2.bitwise_not` on uint8 maps every pixel `p` to `255 - p`. -/
def polarity_normalize (g : Gray) : Gray :=
  if np_mean g < 100 then g.map (fun p => 255 - p) else g

/-- The error raised by `preprocess_image` when `cv2.imread` returns None
(`FileNotFoundError(f"Image not found: {path}")`), i.e. the spec's
`ImageNotFound`. -/
inductive OcrError where
  | ImageNotFound (path : String)
deriving Repr, DecidableEq

/-- A decoded color image: dimensions plus pixel data of an abstract
type `C` (the claims never inspect color pixel values). -/
structure Img (C : Type) where
  h : ℕ
  w : ℕ
  data : C
deriving Repr, DecidableEq

/-- Model of `preprocess_image` (src/utils/ocr.py lines 40–106).  Parameters model
the OpenCV library surface:

  * `imread path` — `cv2.imread`, `none` when the file cannot be
    opened/decoded;
  * `cv_resize data w' h'` — pixel resampling of `cv2.resize` to the
    requested `(w', h')` (dimension bookkeeping is explicit here);
  * `cvtColor` — BGR→grayscale conversion, producing the gray buffer;
  * `bilateralFilter`, `adaptiveThreshold` — the denoise and binarization
    filters (`cv2.bilateralFilter(gray, 9, 15, 15)` and
    `cv2.adaptiveThreshold(blur, 255, ..., 15, 8)`);
  * `imwrite name buf` — `cv2.imwrite`, which returns False on failure
    (e.g. unwritable directory) and does not raise; the source discards
    its result.

The mean-threshold inversion and the resize dimension computation are
concrete, as the claims depend on them. -/
def preprocess_image {C : Type}
    (imread : String → Option (Img C))
    (cv_resize : C → ℕ → ℕ → C)
    (cvtColor : C → Gray)
    (bilateralFilter : Gray → Gray)
    (adaptiveThreshold : Gray → Gray)
    (imwrite : String → Gray → Bool)
    (path : String) (resize_width : ℕ) : Except OcrError Gray :=
  match imread path with
  | none => .error (.ImageNotFound path)
  | some img0 =>
    let img : Img C :=
      if img0.w < resize_width then
        let dims := resize_dims resize_width img0.w img0.h
        ⟨dims.2, dims.1, cv_resize img0.data dims.1 dims.2⟩
      else img0
    let gray := cvtColor img.data
    let gray := polarity_normalize gray
    let _ := imwrite "outputs/preprocessed-gray.jpg" gray
    let blur := bilateralFilter gray
    let _ := imwrite "outputs/preprocessed-blur.jpg" blur
    let th := adaptiveThreshold blur
    let _ := imwrite "outputs/preprocessed.jpg" th
    .ok th

/-- The fragment-joining expression of `image_to_text`
(src/utils/ocr.py line 143):

    text = "\n".join([r.strip() for r in results if r.strip()])

(`[f r for r in xs if p r]` is `(xs.filter p).map f`; a Python string is
truthy exactly when nonempty). -/
def join_fragments (results : List String) : String :=
  String.intercalate "\n" ((results.filter fun r => strip r ≠ "").map strip)

/-- Stated from the spec's words, for comparison with `join_fragments`:
"join non-blank fragments with newline separators, discarding blank
fragments" — the retained fragments joined as they are. -/
def join_fragments_spec (results : List String) : String :=
  String.intercalate "\n" (results.filter fun r => strip r ≠ "")

/-- Model of `image_to_text` (src/utils/ocr.py lines 108–146).  `readtext cfg buf`
models `reader.readtext(np.array(pil), detail=0, paragraph=True)` for the
reader identified by configuration `cfg`: the list of recognized text
fragments.  The reader cache is threaded explicitly; a
`preprocess_image` exception propagates (after the cache update, as in the
source order). -/
def image_to_text {C : Type}
    (imread : String → Option (Img C))
    (cv_resize : C → ℕ → ℕ → C)
    (cvtColor : C → Gray)
    (bilateralFilter : Gray → Gray)
    (adaptiveThreshold : Gray → Gray)
    (imwrite : String → Gray → Bool)
    (readtext : ReaderCfg → Gray → List String)
    (cache : Option ReaderCfg)
    (path : String) (lang_list : List String) (gpu : Bool) :
    Except OcrError String × Option ReaderCfg :=
  let r := init_reader lang_list gpu cache
  match preprocess_image imread cv_resize cvtColor bilateralFilter
      adaptiveThreshold imwrite path 1600 with
  | .error e => (.error e, r.2.1)
  | .ok prep => (.ok (join_fragments (readtext r.1 prep)), r.2.1)

/-! ## src/utils/notion.py -/

/-- One entry of the `"answer"` list of a structured question record
(the contract of `build_notion_payload`, src/utils/notion.py lines 35–40):
`{"option": ..., "isCorrect": ..., "explanation": ...}`. -/
structure AnswerOption where
  option : String
  isCorrect : Bool
  explanation : String
deriving Repr, DecidableEq

/-- A structured question record: `{"question": ..., "answer": [...]}`,
the shape `json.loads` must produce for the pipeline to proceed. -/
structure Question where
  question : String
  answer : List AnswerOption
deriving Repr, DecidableEq

/-- The `"annotations"` object of a Notion rich-text element
(src/utils/notion.py lines 80–83). -/
structure Annotations where
  code : Bool
  color : String
deriving Repr, DecidableEq

/-- One `{"type": "text", "text": {"content": ...}, ["annotations": ...]}`
rich-text element. -/
structure TextSpan where
  content : String
  annotations : Option Annotations
deriving Repr, DecidableEq

/-- The paragraph block placed inside each toggle
(src/utils/notion.py lines 71–92). -/
structure ParagraphBlock where
  object : String
  type : String
  rich_text : List TextSpan
deriving Repr, DecidableEq

/-- A toggle block (src/utils/notion.py lines 58–95). -/
structure ToggleBlock where
  object : String
  type : String
  rich_text : List TextSpan
  children : List ParagraphBlock
deriving Repr, DecidableEq

/-- The numbered-list-item block wrapping one question
(src/utils/notion.py lines 103–119). -/
structure NumberedListItem where
  object : String
  type : String
  rich_text : List TextSpan
  children : List ToggleBlock
deriving Repr, DecidableEq

/-- The full payload `{"children": [...]}` sent to
`notion.append_block_children`. -/
structure NotionPayload where
  children : List NumberedListItem
deriving Repr, DecidableEq

/-- The toggle built for one answer entry in the loop body of
`build_notion_payload` (src/utils/notion.py lines 49–95). -/
def mkAnswerToggle (ans : AnswerOption) : ToggleBlock :=
  let correctness_label := if ans.isCorrect then "Correcto" else "Incorrecto"
  let color := if ans.isCorrect then "green" else "red"
  { object := "block"
    type := "toggle"
    rich_text := [{ content := ans.option, annotations := none }]
    children :=
      [{ object := "block"
         type := "paragraph"
         rich_text :=
           [{ content := correctness_label ++ ": "
              annotations := some { code := true, color := color } },
            { content := ans.explanation, annotations := none }] }] }

/-- A Python value decoded by `json.loads` from the LLM's reply,
classified by whether it has the structured-record shape that
`build_notion_payload`'s dict accesses need.  `json.loads` itself accepts
ANY well-formed JSON: a wrong-shape value (`other`, carrying its source
text) is stored and flows on to the upload stage, where the first dict
access `question_data["answer"]` crashes (`KeyError` for dicts without
the key, `TypeError` for non-dict values — modelled uniformly as
`keyError "answer"` below). -/
inductive PyObject where
  | record (q : Question)
  | other (raw : String)
deriving Repr, DecidableEq

/-- Model of `build_notion_payload` (src/utils/notion.py lines 26–124).  The Python
`for ans in question_data["answer"]: ... toggles.append(toggle)` loop is
the left fold appending one toggle per entry. -/
def build_notion_payload (question_data : Question) : NotionPayload :=
  let toggles := question_data.answer.foldl
    (fun acc ans => acc ++ [mkAnswerToggle ans]) []
  { children :=
      [{ object := "block"
         type := "numbered_list_item"
         rich_text := [{ content := question_data.question, annotations := none }]
         children := toggles }] }

/-- The exceptions that can abort a workflow run:
`keyError f` — an untyped Python `KeyError` (reading an absent state key,
or `build_notion_payload`'s dict access on a wrong-shape value);
`structuringFailure raw` — the LLM call raised, or `json.loads` raised
`JSONDecodeError` on a reply that is not well-formed JSON (the raw text is
retained);
`publishFailure msg` — the Notion client raised. -/
inductive PipelineError where
  | keyError (field : String)
  | structuringFailure (raw : String)
  | publishFailure (msg : String)
deriving Repr, DecidableEq

/-- Model of `upload_question` (src/utils/notion.py lines 127–153) on a
decoded JSON value.  It builds the payload — the dict accesses of
`build_notion_payload` raise on a value without the record shape, before
the Notion client is ever reached — then calls
`notion.append_block_children` (the opaque parameter, `.error` = the
client raised) and returns True; the caller discards that True. -/
def upload_question {R : Type}
    (append_block_children : NotionPayload → Except String R)
    (question_data : PyObject) : Except PipelineError Bool :=
  match question_data with
  | .other _ => .error (.keyError "answer")
  | .record q =>
    match append_block_children (build_notion_payload q) with
    | .error m => .error (.publishFailure m)
    | .ok _ => .ok true

/-! ## src/aws_question_agent.py -/

/-- Model of `GraphState` (src/aws_question_agent.py lines 20–29).  A TypedDict's
declared keys may be absent at runtime; `ocr_text` and `question` are
absent (`Option.none`) until the corresponding stage stores them, and
reading an absent key raises `KeyError`. -/
structure GraphState where
  file_path : List String
  ocr_text : Option String
  question : Option PyObject
deriving Repr, DecidableEq

/-- Model of `get_question_text` (src/aws_question_agent.py lines 32–63).
`extract` models `image_to_text(state["file_path"])`: the text returned by
the Text Extractor for the record's image path(s).  On blank text the
function returns the state unchanged (without storing `ocr_text`);
otherwise it stores the text. -/
def get_question_text (extract : List String → String)
    (state : GraphState) : GraphState :=
  let text := extract state.file_path
  if strip text = "" then state
  else { state with ocr_text := some text }

/-- Model of `convert_text_to_json` (src/aws_question_agent.py lines 66–92).
`llm` models `answer_question_with_llm` (`.error` = the client raised);
`json_loads` models `json.loads`: `none` = `JSONDecodeError` (the reply is
not well-formed JSON), `some v` = the decoded value, WHATEVER its shape —
the source performs no record-shape validation, so a wrong-shape value is
stored in `state["question"]` and flows on.  `state["ocr_text"]` is
evaluated first and raises `KeyError` when absent.  Also returns the list
of texts the LLM was invoked on. -/
def convert_text_to_json (llm : String → Except String String)
    (json_loads : String → Option PyObject)
    (state : GraphState) : Except PipelineError GraphState × List String :=
  match state.ocr_text with
  | none => (.error (.keyError "ocr_text"), [])
  | some t =>
    match llm t with
    | .error m => (.error (.structuringFailure m), [t])
    | .ok raw =>
      match json_loads raw with
      | none => (.error (.structuringFailure raw), [t])
      | some v => (.ok { state with question := some v }, [t])

/-- Model of `upload_to_notion` (src/aws_question_agent.py lines 94–114):
reads `state["question"]` (raising `KeyError` when absent) and passes it
to `upload_question`, whose return value is discarded.  Also returns the
list of values `upload_question` (the Publisher) was invoked with. -/
def upload_to_notion {R : Type}
    (append_block_children : NotionPayload → Except String R)
    (state : GraphState) : Except PipelineError GraphState × List PyObject :=
  match state.question with
  | none => (.error (.keyError "question"), [])
  | some v =>
    match upload_question append_block_children v with
    | .error e => (.error e, [v])
    | .ok _ => (.ok state, [v])

/-- One run of the compiled workflow graph
(src/aws_question_agent.py lines 119–143): the unconditional edge chain
`get_question_text → convert_text_to_json → upload_to_notion → END`.
Returns the final outcome (`.ok` = the run reached END/Done, `.error` =
an exception aborted the run), the list of LLM invocations, and the list
of Publisher invocations. -/
def runWorkflow {R : Type} (extract : List String → String)
    (llm : String → Except String String)
    (json_loads : String → Option PyObject)
    (append_block_children : NotionPayload → Except String R)
    (s0 : GraphState) :
    Except PipelineError GraphState × List String × List PyObject :=
  let s1 := get_question_text extract s0
  match convert_text_to_json llm json_loads s1 with
  | (.error e, ls) => (.error e, ls, [])
  | (.ok s2, ls) =>
    match upload_to_notion append_block_children s2 with
    | (.error e, ps) => (.error e, ls, ps)
    | (.ok s3, ps) => (.ok s3, ls, ps)

/-! ## Helper lemmas -/

/-- A Python append-in-a-loop is `List.map`. -/
theorem foldl_append_singleton {α β : Type _} (f : α → β) (l : List α)
    (acc : List β) : l.foldl (fun a x => a ++ [f x]) acc = acc ++ l.map f := by
  induction l generalizing acc with
  | nil => simp
  | cons x xs ih => simp [ih]

/-- Once the reader cache holds a configuration `c`, every later call uses
`c` and constructs nothing. -/
theorem readerCalls_fold_cached (rest : List ReaderCfg)
    (acc : List (ReaderCfg × Bool)) (c : ReaderCfg) :
    rest.foldl
        (fun a cfg =>
          let r := init_reader cfg.1 cfg.2 a.2
          (a.1 ++ [(r.1, r.2.2)], r.2.1))
        (acc, some c)
      = (acc ++ rest.map fun _ => (c, false), some c) := by
  induction rest generalizing acc with
  | nil => simp
  | cons x xs ih =>
    rw [List.foldl_cons]
    show xs.foldl
        (fun a cfg =>
          let r := init_reader cfg.1 cfg.2 a.2
          (a.1 ++ [(r.1, r.2.2)], r.2.1))
        (acc ++ [(c, false)], some c)
      = (acc ++ (x :: xs).map fun _ => (c, false), some c)
    rw [ih]
    simp

/-- The reader-usage trace of a nonempty call sequence. -/
theorem runReaderCalls_cons (c0 : ReaderCfg) (rest : List ReaderCfg) :
    runReaderCalls (c0 :: rest) = (c0, true) :: rest.map fun _ => (c0, false) := by
  unfold runReaderCalls
  simp only [List.foldl_cons]
  rw [show init_reader c0.1 c0.2 none = (c0, some c0, true) from rfl]
  rw [readerCalls_fold_cached]
  simp

/-- C10: `build_notion_payload` produces exactly one toggle block per
answer entry, in input order; each toggle's visible text is the entry's
option text, and its child paragraph carries the label `Correcto` in green
when `isCorrect` is true and `Incorrecto` in red when false, followed by
the entry's explanation. -/
theorem build_notion_payload_one_toggle_per_answer (q : Question) :
    (build_notion_payload q).children =
      [{ object := "block", type := "numbered_list_item",
         rich_text := [{ content := q.question, annotations := none }],
         children := q.answer.map fun a =>
           { object := "block", type := "toggle",
             rich_text := [{ content := a.option, annotations := none }],
             children :=
               [{ object := "block", type := "paragraph",
                  rich_text :=
                    [{ content :=
                         (if a.isCorrect then "Correcto" else "Incorrecto")
                           ++ ": ",
                       annotations := some { code := true,
                                             color := if a.isCorrect
                                                      then "green"
                                                      else "red" } },
                     { content := a.explanation,
                       annotations := none }] }] } }] := by
  unfold build_notion_payload
  rw [foldl_append_singleton]
  rfl

/-- C2 counterexample: with a first call configured `(["en"], gpu on)` and
a second call configured `(["es"], gpu off)`, the second call gets the
engine built with the FIRST call's configuration, not its own. -/
theorem init_reader_second_call_reuses_first_config :
    runReaderCalls [(["en"], true), (["es"], false)]
        = [((["en"], true), true), ((["en"], true), false)]
      ∧ ((["en"], true) : ReaderCfg) ≠ (["es"], false) := by
  exact ⟨rfl, by decide⟩

/-- C2 amended: the engine is constructed at most once per process
lifetime — on the first call — and every call (whatever configuration it
requests) uses the instance built with the first call's configuration. -/
theorem init_reader_constructs_once (calls : List ReaderCfg) (c0 : ReaderCfg)
    (rest : List ReaderCfg) (hc : calls = c0 :: rest) :
    ((runReaderCalls calls).filter fun x => x.2).length ≤ 1
      ∧ ∀ x ∈ runReaderCalls calls, x.1 = c0 := by
  subst hc
  rw [runReaderCalls_cons]
  constructor
  · have hnil : ((rest.map fun _ => (c0, false)).filter fun x => x.2) = [] := by
      rw [List.filter_eq_nil_iff]
      intro a ha
      obtain ⟨y, _, rfl⟩ := List.mem_map.mp ha
      simp
    simp [List.filter, hnil]
  · intro x hx
    rcases List.mem_cons.mp hx with h | h
    · subst h; rfl
    · obtain ⟨y, _, rfl⟩ := List.mem_map.mp h; rfl

theorem init_reader_constructs_once_witness :
    ((runReaderCalls [(["en"], true), (["es"], false)]).filter fun x => x.2).length ≤ 1
      ∧ ∀ x ∈ runReaderCalls [(["en"], true), (["es"], false)], x.1 = (["en"], true) :=
  init_reader_constructs_once _ (["en"], true) [(["es"], false)] rfl

/-- C5 counterexample: the code does not return the non-blank fragments
themselves — it strips each retained fragment.  On the engine output
`[" a"]` the code produces `"a"`, while joining the non-blank fragments
as they are would produce `" a"`. -/
theorem join_fragments_strips_retained_fragments :
    join_fragments [" a"] = "a" ∧ join_fragments_spec [" a"] = " a"
      ∧ join_fragments [" a"] ≠ join_fragments_spec [" a"] := by
  refine ⟨rfl, rfl, ?_⟩
  rw [(rfl : join_fragments [" a"] = "a"), (rfl : join_fragments_spec [" a"] = " a")]
  decide

/-- C5 amended: the result joins the non-blank fragments, EACH STRIPPED of
leading/trailing whitespace, with newline separators, discarding blank
fragments; an all-blank or empty fragment sequence yields the empty
string rather than an error. -/
theorem join_fragments_amended (results blanks : List String)
    (hb : ∀ r ∈ blanks, strip r = "") :
    join_fragments results
        = String.intercalate "\n" ((results.filter fun r => strip r ≠ "").map strip)
      ∧ join_fragments [] = ""
      ∧ join_fragments blanks = "" := by
  refine ⟨rfl, rfl, ?_⟩
  unfold join_fragments
  have hnil : (blanks.filter fun r => strip r ≠ "") = [] := by
    rw [List.filter_eq_nil_iff]
    intro a ha
    simp [hb a ha]
  rw [hnil]
  rfl

theorem join_fragments_amended_witness :
    join_fragments [" a", "", "  ", "b c "]
        = String.intercalate "\n"
            (([" a", "", "  ", "b c "].filter fun r => strip r ≠ "").map strip)
      ∧ join_fragments [] = ""
      ∧ join_fragments ["", "   "] = "" :=
  join_fragments_amended [" a", "", "  ", "b c "] ["", "   "] (by decide)

/-- The mean intensity of a constant buffer is its constant value. -/
theorem np_mean_replicate (n c : ℕ) (hn : 0 < n) :
    np_mean (List.replicate n c) = c := by
  unfold np_mean
  rw [List.sum_replicate, List.length_replicate, smul_eq_mul]
  push_cast
  field_simp

/-- C4: the polarity step inverts intensities (`p ↦ 255 - p`) exactly when
the mean is strictly below 100, leaves the buffer unchanged when the mean
is at least 100; an all-white buffer is left unchanged and an all-black
buffer is inverted to all-white. -/
theorem polarity_normalize_mean_threshold (g : Gray) (n : ℕ) (hn : 0 < n) :
    (np_mean g < 100 → polarity_normalize g = g.map fun p => 255 - p)
      ∧ (100 ≤ np_mean g → polarity_normalize g = g)
      ∧ polarity_normalize (List.replicate n 255) = List.replicate n 255
      ∧ polarity_normalize (List.replicate n 0) = List.replicate n 255 := by
  refine ⟨fun h => by simp [polarity_normalize, h],
          fun h => by simp [polarity_normalize, not_lt.mpr h], ?_, ?_⟩
  · have hm := np_mean_replicate n 255 hn
    have hlt : ¬(np_mean (List.replicate n 255) < 100) := by rw [hm]; norm_num
    simp [polarity_normalize, hlt]
  · have hm := np_mean_replicate n 0 hn
    have hlt : np_mean (List.replicate n 0) < 100 := by rw [hm]; norm_num
    simp [polarity_normalize, hlt, List.map_replicate]

theorem polarity_normalize_mean_threshold_witness :
    polarity_normalize (List.replicate 3 255) = List.replicate 3 255
      ∧ polarity_normalize (List.replicate 3 0) = List.replicate 3 255 :=
  ⟨(polarity_normalize_mean_threshold [] 3 (by norm_num)).2.2.1,
   (polarity_normalize_mean_threshold [] 3 (by norm_num)).2.2.2⟩

/-- C1 (the code, evaluated on the failing input): when the Text Extractor
returns a blank string and the record starts without `ocr_text`, the
workflow does NOT reach Done — the unconditional edge into
`convert_text_to_json` makes that node read the absent `ocr_text` key and
the run aborts with `KeyError`.  (The LLM and the Publisher are indeed
never invoked, but the run ends as an error, not as a no-op Done.) -/
theorem blank_extraction_aborts_with_keyerror {R : Type}
    (extract : List String → String) (llm : String → Except String String)
    (json_loads : String → Option PyObject)
    (append_block_children : NotionPayload → Except String R)
    (s0 : GraphState) (h0 : s0.ocr_text = none)
    (hb : strip (extract s0.file_path) = "") :
    runWorkflow extract llm json_loads append_block_children s0
      = (.error (.keyError "ocr_text"), [], []) := by
  unfold runWorkflow get_question_text convert_text_to_json
  simp [hb, h0]

theorem blank_extraction_aborts_with_keyerror_witness :
    runWorkflow (fun _ => "   ") (fun t => .ok t) (fun _ => none)
        ((fun _ => .ok true) : NotionPayload → Except String Bool)
        { file_path := ["images/Prueba.png"], ocr_text := none, question := none }
      = (.error (.keyError "ocr_text"), [], []) :=
  blank_extraction_aborts_with_keyerror _ _ _ _ _ rfl (by decide)

/-- C6 counterexample: a Structurer reply that is well-formed JSON of the
WRONG shape — `{"foo": 1}` — is accepted by `json.loads`, flows to the
upload stage, and the Publisher IS invoked with it (the invocation list is
nonempty); the run then dies with the untyped `KeyError` of
`question_data["answer"]` inside payload construction, not with a
structuring failure.  This refutes the claim that every such run ends in
`StructuringFailure` with the Publisher never invoked. -/
theorem wrong_shape_reply_reaches_publisher :
    runWorkflow (fun _ => "What is S3? A) Storage B) Compute")
        (fun _ => .ok "\x7b\"foo\": 1\x7d")
        (fun _ => some (.other "\x7b\"foo\": 1\x7d"))
        ((fun _ => .ok true) : NotionPayload → Except String Bool)
        { file_path := ["q.png"], ocr_text := none, question := none }
      = (.error (.keyError "answer"),
         ["What is S3? A) Storage B) Compute"],
         [.other "\x7b\"foo\": 1\x7d"])
      ∧ ([PyObject.other "\x7b\"foo\": 1\x7d"] : List PyObject) ≠ [] := by
  constructor
  · have hb : ¬ (strip "What is S3? A) Storage B) Compute" = "") := by decide
    unfold runWorkflow get_question_text convert_text_to_json upload_to_notion
      upload_question
    simp [hb]
  · decide

/-- C6 amended: when extraction is non-blank and the Question Structurer
raises, or returns output that is not well-formed JSON (`json.loads`
raises), the run terminates with a structuring failure and the Publisher
is never invoked; a reply that is well-formed JSON but lacks the
structured-record shape instead flows on — the Publisher is invoked with
it and the run fails with an untyped `KeyError` inside payload
construction. -/
theorem structuring_failure_never_publishes {R : Type}
    (extract : List String → String) (llm : String → Except String String)
    (json_loads : String → Option PyObject)
    (append_block_children : NotionPayload → Except String R)
    (s0 : GraphState)
    (hb : strip (extract s0.file_path) ≠ "") :
    ((∀ raw, llm (extract s0.file_path) = .ok raw → json_loads raw = none) →
        ∃ m, runWorkflow extract llm json_loads append_block_children s0
          = (.error (.structuringFailure m), [extract s0.file_path], []))
      ∧ ∀ raw v, llm (extract s0.file_path) = .ok raw →
          json_loads raw = some (.other v) →
          runWorkflow extract llm json_loads append_block_children s0
            = (.error (.keyError "answer"), [extract s0.file_path],
               [.other v]) := by
  constructor
  · intro hf
    unfold runWorkflow get_question_text convert_text_to_json
    cases hllm : llm (extract s0.file_path) with
    | error m => exact ⟨m, by simp [hb, hllm]⟩
    | ok raw => exact ⟨raw, by simp [hb, hllm, hf raw hllm]⟩
  · intro raw v hllm hjson
    unfold runWorkflow get_question_text convert_text_to_json upload_to_notion
      upload_question
    simp [hb, hllm, hjson]

theorem structuring_failure_never_publishes_witness :
    (∃ m, runWorkflow (fun _ => "What is S3? A) Storage B) Compute")
        (fun _ => .ok "not json") (fun _ => none)
        ((fun _ => .ok true) : NotionPayload → Except String Bool)
        { file_path := ["q.png"], ocr_text := none, question := none }
      = (.error (.structuringFailure m),
         ["What is S3? A) Storage B) Compute"], []))
      ∧ runWorkflow (fun _ => "What is S3? A) Storage B) Compute")
          (fun _ => .ok "\x7b\"a\": 0\x7d")
          (fun _ => some (.other "\x7b\"a\": 0\x7d"))
          ((fun _ => .ok true) : NotionPayload → Except String Bool)
          { file_path := ["q.png"], ocr_text := none, question := none }
        = (.error (.keyError "answer"),
           ["What is S3? A) Storage B) Compute"],
           [.other "\x7b\"a\": 0\x7d"]) :=
  ⟨(structuring_failure_never_publishes _ _ _ _ _ (by decide)).1
     (fun _ _ => rfl),
   (structuring_failure_never_publishes _ _ _ _ _ (by decide)).2
     "\x7b\"a\": 0\x7d" "\x7b\"a\": 0\x7d" rfl rfl⟩

/-- C8: when extraction is non-blank, the Structurer's reply decodes to a
proper record `q`, and the Notion append on its payload succeeds (with
ANY success payload `r`, which the source discards), the run reaches Done
with the Publisher invoked exactly once, with exactly the record `q`,
unmodified. -/
theorem publisher_invoked_once_with_record {R : Type}
    (extract : List String → String) (llm : String → Except String String)
    (json_loads : String → Option PyObject)
    (append_block_children : NotionPayload → Except String R)
    (s0 : GraphState) (raw : String) (q : Question) (r : R)
    (hb : strip (extract s0.file_path) ≠ "")
    (hllm : llm (extract s0.file_path) = .ok raw)
    (hp : json_loads raw = some (.record q))
    (hpub : append_block_children (build_notion_payload q) = .ok r) :
    runWorkflow extract llm json_loads append_block_children s0
      = (.ok { s0 with ocr_text := some (extract s0.file_path),
                       question := some (.record q) },
         [extract s0.file_path], [.record q]) := by
  unfold runWorkflow get_question_text convert_text_to_json upload_to_notion
    upload_question
  simp [hb, hllm, hp, hpub]

theorem publisher_invoked_once_with_record_witness :
    runWorkflow (fun _ => "What is S3? A) Storage B) Compute")
        (fun _ => .ok "\x7b...\x7d")
        (fun _ => some (.record { question := "What is S3?",
                                  answer := [{ option := "Storage",
                                               isCorrect := true,
                                               explanation := "Almacenamiento" }] }))
        ((fun _ => .ok true) : NotionPayload → Except String Bool)
        { file_path := ["q.png"], ocr_text := none, question := none }
      = (.ok { file_path := ["q.png"],
               ocr_text := some "What is S3? A) Storage B) Compute",
               question := some (.record { question := "What is S3?",
                                           answer := [{ option := "Storage",
                                                        isCorrect := true,
                                                        explanation := "Almacenamiento" }] }) },
         ["What is S3? A) Storage B) Compute"],
         [.record { question := "What is S3?",
                    answer := [{ option := "Storage", isCorrect := true,
                                 explanation := "Almacenamiento" }] }]) :=
  publisher_invoked_once_with_record _ _ _ _ _ _ _ true (by decide) rfl rfl rfl

/-- On a decodable image, `preprocess_image` returns the binarized buffer:
the adaptive threshold of the bilateral filter of the polarity-normalized
grayscale of the (possibly upscaled) decoded image. -/
theorem preprocess_image_some {C : Type}
    (imread : String → Option (Img C)) (cv_resize : C → ℕ → ℕ → C)
    (cvtColor : C → Gray) (bilateralFilter : Gray → Gray)
    (adaptiveThreshold : Gray → Gray) (imwrite : String → Gray → Bool)
    (path : String) (resize_width : ℕ) (img0 : Img C)
    (hread : imread path = some img0) :
    preprocess_image imread cv_resize cvtColor bilateralFilter
        adaptiveThreshold imwrite path resize_width
      = .ok (adaptiveThreshold (bilateralFilter (polarity_normalize (cvtColor
          (if img0.w < resize_width then
             ({ h := (resize_dims resize_width img0.w img0.h).2,
                w := (resize_dims resize_width img0.w img0.h).1,
                data := cv_resize img0.data
                  (resize_dims resize_width img0.w img0.h).1
                  (resize_dims resize_width img0.w img0.h).2 } : Img C)
           else img0).data)))) := by
  unfold preprocess_image
  rw [hread]

/-- C7: `preprocess_image` fails with `ImageNotFound` exactly when
`cv2.imread` cannot open/decode the file at `path`; on every decodable
image it returns the binarized buffer without error. -/
theorem preprocess_image_imagenotfound_iff {C : Type}
    (imread : String → Option (Img C)) (cv_resize : C → ℕ → ℕ → C)
    (cvtColor : C → Gray) (bilateralFilter : Gray → Gray)
    (adaptiveThreshold : Gray → Gray) (imwrite : String → Gray → Bool)
    (path : String) (resize_width : ℕ) :
    (preprocess_image imread cv_resize cvtColor bilateralFilter
          adaptiveThreshold imwrite path resize_width
        = .error (.ImageNotFound path) ↔ imread path = none)
      ∧ ∀ img, imread path = some img →
          ∃ out, preprocess_image imread cv_resize cvtColor bilateralFilter
              adaptiveThreshold imwrite path resize_width = .ok out := by
  cases h : imread path with
  | none =>
    constructor
    · simp [preprocess_image, h]
    · intro img him
      exact Option.noConfusion him
  | some img0 =>
    constructor
    · constructor
      · intro heq
        rw [preprocess_image_some imread cv_resize cvtColor bilateralFilter
          adaptiveThreshold imwrite path resize_width img0 h] at heq
        exact Except.noConfusion heq
      · intro hnone
        exact Option.noConfusion hnone
    · intro img him
      exact ⟨_, preprocess_image_some imread cv_resize cvtColor bilateralFilter
        adaptiveThreshold imwrite path resize_width img0 h⟩

theorem preprocess_image_imagenotfound_iff_witness :
    ∃ out, preprocess_image (fun _ => some (⟨2, 2, ()⟩ : Img Unit))
        (fun d _ _ => d) (fun _ => [255, 255, 255, 255]) id id
        (fun _ _ => true) "images/Prueba.png" 1600 = .ok out :=
  (preprocess_image_imagenotfound_iff _ _ _ _ _ _ "images/Prueba.png" 1600).2
    ⟨2, 2, ()⟩ rfl

/-- C9: the debug `cv2.imwrite` side effects cannot affect or fail the
main path — the result is identical whatever the writer does (including a
writer whose every write fails, as with an unwritable directory), and on a
decodable image the binarized buffer is still returned. -/
theorem preprocess_image_ignores_write_failures {C : Type}
    (imread : String → Option (Img C)) (cv_resize : C → ℕ → ℕ → C)
    (cvtColor : C → Gray) (bilateralFilter : Gray → Gray)
    (adaptiveThreshold : Gray → Gray)
    (imwrite1 imwrite2 : String → Gray → Bool)
    (path : String) (resize_width : ℕ) (img : Img C)
    (hdec : imread path = some img) :
    preprocess_image imread cv_resize cvtColor bilateralFilter
        adaptiveThreshold imwrite1 path resize_width
      = preprocess_image imread cv_resize cvtColor bilateralFilter
          adaptiveThreshold imwrite2 path resize_width
      ∧ ∃ out, preprocess_image imread cv_resize cvtColor bilateralFilter
          adaptiveThreshold (fun _ _ => false) path resize_width = .ok out := by
  constructor
  · rw [preprocess_image_some imread cv_resize cvtColor bilateralFilter
      adaptiveThreshold imwrite1 path resize_width img hdec,
      preprocess_image_some imread cv_resize cvtColor bilateralFilter
      adaptiveThreshold imwrite2 path resize_width img hdec]
  · exact ⟨_, preprocess_image_some imread cv_resize cvtColor bilateralFilter
      adaptiveThreshold (fun _ _ => false) path resize_width img hdec⟩

theorem preprocess_image_ignores_write_failures_witness :
    preprocess_image (fun _ => some (⟨3, 2, ()⟩ : Img Unit))
        (fun d _ _ => d) (fun _ => [0, 0, 0, 0, 0, 0]) id id
        (fun _ _ => true) "images/Example.png" 1600
      = preprocess_image (fun _ => some (⟨3, 2, ()⟩ : Img Unit))
          (fun d _ _ => d) (fun _ => [0, 0, 0, 0, 0, 0]) id id
          (fun _ _ => false) "images/Example.png" 1600
      ∧ ∃ out, preprocess_image (fun _ => some (⟨3, 2, ()⟩ : Img Unit))
          (fun d _ _ => d) (fun _ => [0, 0, 0, 0, 0, 0]) id id
          (fun _ _ => false) "images/Example.png" 1600 = .ok out :=
  preprocess_image_ignores_write_failures _ _ _ _ _ _ _ "images/Example.png"
    1600 ⟨3, 2, ()⟩ rfl

/-- For `q ≥ 1` the binary exponent satisfies `2^(fpExp q) ≤ q`. -/
theorem fpExp_pow_le (q : ℚ) (h1 : 1 ≤ q) : (2 : ℚ) ^ (fpExp q) ≤ q := by
  unfold fpExp
  have h0 : 1 ≤ ⌊q⌋ := Int.le_floor.mpr (by exact_mod_cast h1)
  have h0n : (⌊q⌋).toNat ≠ 0 := by omega
  have hlog := Nat.pow_log_le_self 2 h0n
  have hcast : ((2 ^ Nat.log 2 (⌊q⌋).toNat : ℕ) : ℚ) ≤ (((⌊q⌋).toNat : ℕ) : ℚ) := by
    exact_mod_cast hlog
  calc (2 : ℚ) ^ (Nat.log 2 (⌊q⌋).toNat)
      = ((2 ^ Nat.log 2 (⌊q⌋).toNat : ℕ) : ℚ) := by push_cast; ring
    _ ≤ (((⌊q⌋).toNat : ℕ) : ℚ) := hcast
    _ = ((⌊q⌋ : ℤ) : ℚ) := by
        have htn : ((⌊q⌋).toNat : ℤ) = ⌊q⌋ := Int.toNat_of_nonneg (by omega)
        exact_mod_cast htn
    _ ≤ q := Int.floor_le q

/-- Correct rounding at 53 significant bits has relative error at most
`2^(-53)` on inputs `≥ 1`. -/
theorem rnd_abs_err (q : ℚ) (h1 : 1 ≤ q) : |rnd q - q| ≤ q / 2 ^ 53 := by
  have hk : (0 : ℚ) < (2 : ℚ) ^ ((52 : ℤ) - fpExp q) := by positivity
  have hrw : rnd q - q
      = ((round (q * (2 : ℚ) ^ ((52 : ℤ) - fpExp q)) : ℤ)
          - q * (2 : ℚ) ^ ((52 : ℤ) - fpExp q)) / (2 : ℚ) ^ ((52 : ℤ) - fpExp q) := by
    unfold rnd
    field_simp
    ring
  have hA : |(round (q * (2 : ℚ) ^ ((52 : ℤ) - fpExp q)) : ℚ)
      - q * (2 : ℚ) ^ ((52 : ℤ) - fpExp q)| ≤ 1 / 2 := by
    rw [abs_sub_comm]
    exact abs_sub_round _
  have key : (2 : ℚ) ^ (52 : ℕ) ≤ q * (2 : ℚ) ^ ((52 : ℤ) - fpExp q) := by
    have h2e := fpExp_pow_le q h1
    have hkk : (0 : ℚ) ≤ (2 : ℚ) ^ ((52 : ℤ) - fpExp q) := le_of_lt hk
    have hmul := mul_le_mul_of_nonneg_right h2e hkk
    calc (2 : ℚ) ^ (52 : ℕ)
        = (2 : ℚ) ^ ((fpExp q : ℤ) + ((52 : ℤ) - fpExp q)) := by norm_num
      _ = (2 : ℚ) ^ (fpExp q : ℤ) * (2 : ℚ) ^ ((52 : ℤ) - fpExp q) := by
          rw [zpow_add₀ (by norm_num : (2:ℚ) ≠ 0)]
      _ = (2 : ℚ) ^ (fpExp q) * (2 : ℚ) ^ ((52 : ℤ) - fpExp q) := by
          rw [zpow_natCast]
      _ ≤ q * (2 : ℚ) ^ ((52 : ℤ) - fpExp q) := hmul
  rw [hrw, abs_div, abs_of_pos hk,
    div_le_div_iff₀ hk (by positivity : (0:ℚ) < 2 ^ 53)]
  have hmul2 := mul_le_mul_of_nonneg_right hA
    (by positivity : (0:ℚ) ≤ 2 ^ 53)
  have hnum : (1 : ℚ) / 2 * 2 ^ 53 = 2 ^ (52 : ℕ) := by norm_num
  linarith [key, hmul2, hnum ▸ hmul2]

/-- Rounding fixes zero (used for zero-height inputs). -/
theorem rnd_zero : rnd 0 = 0 := by
  unfold rnd
  norm_num

/-- C3 counterexample: for the decodable 97-pixel-wide image, the upscale
step does NOT produce width `round(1600) = 1600`.  In double precision
`97 * (1600/97)` evaluates to `1599.9999999999998`, and `int()` truncates
it to `1599`. -/
theorem resize_dims_width_97 :
    resize_dims 1600 97 97 = (1599, 1599) ∧ (1599 : ℕ) ≠ 1600 := by
  have e1 : fpExp ((1600 : ℚ) / 97) = 4 := by
    unfold fpExp
    norm_num
    exact Nat.log_eq_of_pow_le_of_lt_pow (by norm_num) (by norm_num)
  have r1 : rnd ((1600 : ℚ) / 97) = 4642886213784016 / 2 ^ 48 := by
    unfold rnd
    rw [e1, round_eq]
    norm_num
  have e2 : fpExp ((97 : ℚ) * (4642886213784016 / 2 ^ 48)) = 10 := by
    unfold fpExp
    norm_num
    exact Nat.log_eq_of_pow_le_of_lt_pow (by norm_num) (by norm_num)
  have r2 : rnd ((97 : ℚ) * (4642886213784016 / 2 ^ 48))
      = 7036874417766399 / 2 ^ 42 := by
    unfold rnd
    rw [e2, round_eq]
    norm_num
  constructor
  · unfold resize_dims
    rw [if_pos (by norm_num : (97 : ℕ) < 1600)]
    push_cast
    rw [r1, r2]
    norm_num
    rfl
  · decide

/-- Bounds on the rounded scale factor `rnd (1600/w)` for `0 < w < 1600`. -/
theorem scale_bounds (w : ℕ) (hw : 0 < w) (hlt : w < 1600) :
    (1 : ℚ) ≤ (1600 : ℚ) / (w : ℚ)
      ∧ (1600 : ℚ) / (w : ℚ) ≤ 1600
      ∧ |rnd ((1600 : ℚ) / (w : ℚ)) - (1600 : ℚ) / (w : ℚ)|
          ≤ ((1600 : ℚ) / (w : ℚ)) / 2 ^ 53
      ∧ (1 : ℚ) ≤ rnd ((1600 : ℚ) / (w : ℚ)) := by
  have hw0 : (0 : ℚ) < (w : ℚ) := by exact_mod_cast hw
  have hwle : (w : ℚ) ≤ 1599 := by exact_mod_cast (by omega : w ≤ 1599)
  have hq1 : (1 : ℚ) ≤ (1600 : ℚ) / (w : ℚ) := by
    rw [le_div_iff₀ hw0]
    linarith
  have hw1 : (1 : ℚ) ≤ (w : ℚ) := by exact_mod_cast hw
  have hqhi : (1600 : ℚ) / (w : ℚ) ≤ 1600 := by
    rw [div_le_iff₀ hw0]
    nlinarith
  have hqlo : (1600 : ℚ) / 1599 ≤ (1600 : ℚ) / (w : ℚ) := by
    rw [div_le_div_iff₀ (by norm_num) hw0]
    nlinarith
  have herr := rnd_abs_err ((1600 : ℚ) / (w : ℚ)) hq1
  have herr2 := abs_le.mp herr
  refine ⟨hq1, hqhi, herr, ?_⟩
  have hsm : ((1600 : ℚ) / (w : ℚ)) / 2 ^ 53 ≤ 1600 / 2 ^ 53 := by
    apply div_le_div_of_nonneg_right hqhi
    positivity
  have : (1 : ℚ) ≤ 1600 / 1599 - 1600 / 2 ^ 53 := by norm_num
  linarith [herr2.1]

/-- Width component of the upscale step for `0 < w < 1600`: the
double-precision `int(w * (1600/w))` is `1600` or `1599`. -/
theorem resize_width_bounds (w : ℕ) (hw : 0 < w) (hlt : w < 1600) :
    (⌊rnd ((w : ℚ) * rnd ((1600 : ℚ) / (w : ℚ)))⌋).toNat = 1600
      ∨ (⌊rnd ((w : ℚ) * rnd ((1600 : ℚ) / (w : ℚ)))⌋).toNat = 1599 := by
  have hw0 : (0 : ℚ) < (w : ℚ) := by exact_mod_cast hw
  obtain ⟨hq1, hqhi, herr, hs1⟩ := scale_bounds w hw hlt
  have herr2 := abs_le.mp herr
  have hwq : (w : ℚ) * ((1600 : ℚ) / (w : ℚ)) = 1600 := by
    field_simp
  have hp0lo : 1600 - 1600 / 2 ^ 53 ≤ (w : ℚ) * rnd ((1600 : ℚ) / (w : ℚ)) := by
    have := mul_le_mul_of_nonneg_left herr2.1 (le_of_lt hw0)
    have hdist : (w : ℚ) * (((1600 : ℚ) / (w : ℚ)) / 2 ^ 53)
        = ((w : ℚ) * ((1600 : ℚ) / (w : ℚ))) / 2 ^ 53 := by ring
    nlinarith [hwq]
  have hp0hi : (w : ℚ) * rnd ((1600 : ℚ) / (w : ℚ)) ≤ 1600 + 1600 / 2 ^ 53 := by
    have := mul_le_mul_of_nonneg_left herr2.2 (le_of_lt hw0)
    nlinarith [hwq]
  have hp01 : (1 : ℚ) ≤ (w : ℚ) * rnd ((1600 : ℚ) / (w : ℚ)) := by
    have : (1 : ℚ) ≤ 1600 - 1600 / 2 ^ 53 := by norm_num
    linarith
  have hperr := abs_le.mp (rnd_abs_err _ hp01)
  have hub : ((w : ℚ) * rnd ((1600 : ℚ) / (w : ℚ))) / 2 ^ 53
      ≤ (1600 + 1600 / 2 ^ 53) / 2 ^ 53 := by
    apply div_le_div_of_nonneg_right hp0hi
    positivity
  have hplo : (3199 : ℚ) / 2 < rnd ((w : ℚ) * rnd ((1600 : ℚ) / (w : ℚ))) := by
    have hc : (3199 : ℚ) / 2 < 1600 - 1600 / 2 ^ 53 - (1600 + 1600 / 2 ^ 53) / 2 ^ 53 := by
      norm_num
    linarith [hperr.1]
  have hphi : rnd ((w : ℚ) * rnd ((1600 : ℚ) / (w : ℚ))) < (3201 : ℚ) / 2 := by
    have hc : 1600 + 1600 / 2 ^ 53 + (1600 + 1600 / 2 ^ 53) / 2 ^ 53 < (3201 : ℚ) / 2 := by
      norm_num
    linarith [hperr.2]
  have hfl_lo : (1599 : ℤ) ≤ ⌊rnd ((w : ℚ) * rnd ((1600 : ℚ) / (w : ℚ)))⌋ := by
    apply Int.le_floor.mpr
    push_cast
    linarith
  have hfl_hi : ⌊rnd ((w : ℚ) * rnd ((1600 : ℚ) / (w : ℚ)))⌋ < 1601 := by
    apply Int.floor_lt.mpr
    push_cast
    linarith
  omega

/-- Truncating a value `v` that lies within `E < 1/w` of the exact
rational `D + r/w` (a quotient `≥ 1` with remainder `r < w`) lands within
one of that rational. -/
theorem floor_near_ratio (w D r : ℕ) (hw : 0 < w) (hD1 : 1 ≤ D)
    (hrlt : r < w) (v E : ℚ) (hE0 : 0 ≤ E) (hE : E < 1 / (w : ℚ))
    (hlow : (D : ℚ) + (r : ℚ) / (w : ℚ) - E ≤ v)
    (hhigh : v ≤ (D : ℚ) + (r : ℚ) / (w : ℚ) + E) :
    |((⌊v⌋).toNat : ℚ) - ((D : ℚ) + (r : ℚ) / (w : ℚ))| ≤ 1 := by
  have hw0 : (0 : ℚ) < (w : ℚ) := by exact_mod_cast hw
  have hinvw : (1 : ℚ) / (w : ℚ) ≤ 1 := by
    rw [div_le_one hw0]
    exact_mod_cast hw
  have hE1 : E < 1 := lt_of_lt_of_le hE hinvw
  rcases Nat.eq_zero_or_pos r with hr0 | hr1
  · -- exact division: the target is the integer D
    subst hr0
    rw [Nat.cast_zero, zero_div, add_zero] at hlow hhigh ⊢
    have hflo : (D : ℤ) - 1 ≤ ⌊v⌋ := by
      apply Int.le_floor.mpr
      push_cast
      linarith
    have hfhi : ⌊v⌋ < (D : ℤ) + 1 := by
      apply Int.floor_lt.mpr
      push_cast
      linarith
    have hn : (⌊v⌋).toNat = D - 1 ∨ (⌊v⌋).toNat = D := by omega
    rcases hn with hn | hn <;> rw [hn]
    · rw [Nat.cast_sub hD1, Nat.cast_one]
      have heq : (D : ℚ) - 1 - (D : ℚ) = -1 := by ring
      rw [heq, abs_neg, abs_one]
    · simp
  · -- non-exact division: the floor is exactly D
    have hr1q : (1 : ℚ) ≤ (r : ℚ) := by exact_mod_cast hr1
    have hrw1 : (r : ℚ) + 1 ≤ (w : ℚ) := by exact_mod_cast hrlt
    have hinvr : (1 : ℚ) / (w : ℚ) ≤ (r : ℚ) / (w : ℚ) :=
      div_le_div_of_nonneg_right hr1q hw0.le
    have hsum : (r : ℚ) / (w : ℚ) + 1 / (w : ℚ) ≤ 1 := by
      rw [div_add_div_same, div_le_one hw0]
      exact hrw1
    have hvlo : (D : ℚ) < v := by linarith
    have hvhi : v < (D : ℚ) + 1 := by linarith
    have hfl : ⌊v⌋ = (D : ℤ) := by
      apply Int.floor_eq_iff.mpr
      constructor
      · push_cast
        linarith
      · push_cast
        linarith
    rw [hfl]
    have htn : ((D : ℤ)).toNat = D := by omega
    rw [htn]
    have hdiff : (D : ℚ) - ((D : ℚ) + (r : ℚ) / (w : ℚ))
        = -((r : ℚ) / (w : ℚ)) := by ring
    rw [hdiff, abs_neg,
      abs_of_nonneg (by positivity : (0:ℚ) ≤ (r : ℚ) / (w : ℚ)),
      div_le_one hw0]
    linarith

/-- Height component of the upscale step: for `0 < h ≤ 2^40` and
`0 < w < 1600`, the double-precision `int(h * (1600/w))` is within one
pixel of the exact ratio `h * 1600 / w`. -/
theorem resize_height_bound (w h : ℕ) (hw : 0 < w) (hlt : w < 1600)
    (h1 : 0 < h) (hh : h ≤ 2 ^ 40) :
    |((⌊rnd ((h : ℚ) * rnd ((1600 : ℚ) / (w : ℚ)))⌋).toNat : ℚ)
        - (h : ℚ) * ((1600 : ℚ) / (w : ℚ))| ≤ 1 := by
  have hw0 : (0 : ℚ) < (w : ℚ) := by exact_mod_cast hw
  have hh1 : (1 : ℚ) ≤ (h : ℚ) := by exact_mod_cast h1
  have hh40 : (h : ℚ) ≤ 2 ^ 40 := by exact_mod_cast hh
  obtain ⟨hq1, hqhi, herr, hs1⟩ := scale_bounds w hw hlt
  have herr2 := abs_le.mp herr
  have hh0 : (0 : ℚ) ≤ (h : ℚ) := by linarith
  have hhs1 : (1 : ℚ) ≤ (h : ℚ) * rnd ((1600 : ℚ) / (w : ℚ)) := by
    have := mul_le_mul hh1 hs1 (by norm_num) hh0
    linarith
  have hverr := abs_le.mp (rnd_abs_err _ hhs1)
  have hqw : ((1600 : ℚ) / (w : ℚ)) * (w : ℚ) = 1600 := by field_simp
  have hxN : (h : ℚ) * ((1600 : ℚ) / (w : ℚ)) = ((1600 * h : ℕ) : ℚ) / (w : ℚ) := by
    push_cast
    ring
  generalize hv : rnd ((h : ℚ) * rnd ((1600 : ℚ) / (w : ℚ))) = v at hverr ⊢
  generalize hsg : rnd ((1600 : ℚ) / (w : ℚ)) = s at herr2 hs1 hhs1 hverr
  generalize hqg : (1600 : ℚ) / (w : ℚ) = q at hq1 hqhi hqw herr2 hxN ⊢
  clear hv hsg hqg herr
  have hq0 : (0 : ℚ) < q := lt_of_lt_of_le one_pos hq1
  have hx0 : (0 : ℚ) < (h : ℚ) * q := mul_pos (lt_of_lt_of_le one_pos hh1) hq0
  -- error of v against the exact product h*q
  have e1 : (h : ℚ) * (q / 2 ^ 53) = ((h : ℚ) * q) / 2 ^ 53 := by ring
  have e2 : (2 * ((h : ℚ) * q)) / 2 ^ 53 = 2 * (((h : ℚ) * q) / 2 ^ 53) := by ring
  have e3 : 3 * ((h : ℚ) * q) / 2 ^ 53 = 3 * (((h : ℚ) * q) / 2 ^ 53) := by ring
  have e4 : (h : ℚ) * (s - q) = (h : ℚ) * s - (h : ℚ) * q := by ring
  have k1' := mul_le_mul_of_nonneg_left herr2.2 hh0
  have k2' := mul_le_mul_of_nonneg_left herr2.1 hh0
  have k1 : (h : ℚ) * s - (h : ℚ) * q ≤ ((h : ℚ) * q) / 2 ^ 53 := by
    rw [e4, e1] at k1'
    exact k1'
  have k2 : -(((h : ℚ) * q) / 2 ^ 53) ≤ (h : ℚ) * s - (h : ℚ) * q := by
    rw [mul_neg, e4, e1] at k2'
    exact k2'
  have hq53 : ((h : ℚ) * q) / 2 ^ 53 ≤ (h : ℚ) * q := by
    rw [div_le_iff₀ (by positivity : (0 : ℚ) < (2 : ℚ) ^ 53)]
    have hc : (1 : ℚ) ≤ 2 ^ 53 := by norm_num
    nlinarith
  have k3 : (h : ℚ) * s ≤ 2 * ((h : ℚ) * q) := by linarith
  have k5 : ((h : ℚ) * s) / 2 ^ 53 ≤ (2 * ((h : ℚ) * q)) / 2 ^ 53 := by
    apply div_le_div_of_nonneg_right k3
    positivity
  have hlow : (h : ℚ) * q - 3 * ((h : ℚ) * q) / 2 ^ 53 ≤ v := by
    linarith [hverr.1, k2, k5, e2, e3]
  have hhigh : v ≤ (h : ℚ) * q + 3 * ((h : ℚ) * q) / 2 ^ 53 := by
    linarith [hverr.2, k1, k5, e2, e3]
  have hE0 : (0 : ℚ) ≤ 3 * ((h : ℚ) * q) / 2 ^ 53 := by
    apply div_nonneg (by linarith)
    positivity
  have hEw : 3 * ((h : ℚ) * q) / 2 ^ 53 * (w : ℚ) < 1 := by
    have hc : 3 * ((h : ℚ) * q) / 2 ^ 53 * (w : ℚ)
        = 3 * (h : ℚ) * (q * (w : ℚ)) / 2 ^ 53 := by ring
    rw [hc, hqw, div_lt_iff₀ (by positivity : (0 : ℚ) < (2 : ℚ) ^ 53)]
    have hc2 : (4800 : ℚ) * 2 ^ 40 < 2 ^ 53 * 1 := by norm_num
    linarith
  have hE : 3 * ((h : ℚ) * q) / 2 ^ 53 < 1 / (w : ℚ) := by
    rw [lt_div_iff₀ hw0]
    exact hEw
  -- decompose the exact target into quotient and remainder
  have hNdm : w * ((1600 * h) / w) + (1600 * h) % w = 1600 * h :=
    Nat.div_add_mod _ w
  have hrlt : (1600 * h) % w < w := Nat.mod_lt _ hw
  have hwN : w ≤ 1600 * h := by omega
  have hD1 : 1 ≤ (1600 * h) / w := (Nat.one_le_div_iff hw).mpr hwN
  have hcast : (w : ℚ) * (((1600 * h) / w : ℕ) : ℚ) + (((1600 * h) % w : ℕ) : ℚ)
      = ((1600 * h : ℕ) : ℚ) := by exact_mod_cast hNdm
  have hxsplit : (h : ℚ) * q
      = (((1600 * h) / w : ℕ) : ℚ) + (((1600 * h) % w : ℕ) : ℚ) / (w : ℚ) := by
    rw [hxN, ← hcast]
    field_simp
    ring
  rw [hxsplit] at hlow hhigh hE0 hE ⊢
  exact floor_near_ratio w ((1600 * h) / w) ((1600 * h) % w) hw hD1 hrlt v
    _ hE0 hE hlow hhigh

/-- C3 amended: for a decodable image with `0 < w < 1600` (heights of
decodable raster images are far below `2^40`), the upscale step produces
width `1600` or — when floating-point rounding makes `w * (1600/w)` land
just below 1600 — one pixel less, `1599`; the height lands within one
pixel of the exact ratio `h * (1600/w)`.  Images at least 1600 wide are
left unchanged. -/
theorem resize_dims_upscale (w h : ℕ) (hw : 0 < w) (hlt : w < 1600)
    (hh : h ≤ 2 ^ 40) :
    ((resize_dims 1600 w h).1 = 1600 ∨ (resize_dims 1600 w h).1 = 1599)
      ∧ |((resize_dims 1600 w h).2 : ℚ) - (h : ℚ) * ((1600 : ℚ) / (w : ℚ))| ≤ 1
      ∧ ∀ w' h' : ℕ, 1600 ≤ w' → resize_dims 1600 w' h' = (w', h') := by
  have hres : resize_dims 1600 w h
      = ((⌊rnd ((w : ℚ) * rnd ((1600 : ℚ) / (w : ℚ)))⌋).toNat,
         (⌊rnd ((h : ℚ) * rnd ((1600 : ℚ) / (w : ℚ)))⌋).toNat) := by
    simp only [resize_dims, if_pos hlt]
    push_cast
    rfl
  refine ⟨?_, ?_, ?_⟩
  · rw [hres]
    exact (resize_width_bounds w hw hlt).imp (fun hx => hx) (fun hx => hx)
  · rw [hres]
    rcases Nat.eq_zero_or_pos h with h0 | h1
    · subst h0
      simp [rnd_zero]
    · exact resize_height_bound w h hw hlt h1 hh
  · intro w' h' hge
    simp only [resize_dims, if_neg (by omega : ¬ w' < 1600)]

theorem resize_dims_upscale_witness :
    ((resize_dims 1600 97 97).1 = 1600 ∨ (resize_dims 1600 97 97).1 = 1599)
      ∧ |((resize_dims 1600 97 97).2 : ℚ) - (97 : ℚ) * ((1600 : ℚ) / (97 : ℚ))| ≤ 1
      ∧ ∀ w' h' : ℕ, 1600 ≤ w' → resize_dims 1600 w' h' = (w', h') :=
  resize_dims_upscale 97 97 (by norm_num) (by norm_num) (by norm_num)
